import Mathlib

/-!
Verification development for the jobTagger JSON walker
(src/jobTagger/src/main.c of the cc-backend repository).

The walker consumes a flat, preorder token stream produced by a jsmn-style
tokenizer.  The tokenizer itself (jsmn.h) is not part of src/, so the token
stream and its child counts are modelled from the specification (spec.md,
section 3): an Object token carries the number of member pairs it directly
contains, an Array token the number of elements, and String/Primitive
tokens carry 0.

All counters in main.c are C size_t values.  Unguarded decrements
(object_tokens--, skip_tokens--, nodes--, node_tokens--) and the additions
to the loop counter are therefore modelled with explicit wraparound modulo
2 ^ 64.  The loop counter j itself is only decremented under the loop
condition j > 0, which the for-loop checks before every iteration.
-/

/-- Word size of the C size_t counters used by main.c. -/
def W : Nat := 2 ^ 64

/-- Wrapping size_t decrement: the effect of the C expression x-- on a
size_t variable, with no zero guard. -/
def decW (n : Nat) : Nat := (n + (W - 1)) % W

/-- Token kinds of the jsmn token stream (JSMN_OBJECT, JSMN_ARRAY,
JSMN_STRING, JSMN_PRIMITIVE). -/
inductive TokKind where
  | object
  | array
  | string
  | primitive
deriving DecidableEq, Repr

/-- Modelled from the spec: one flattened token of the missing jsmn
tokenizer output (spec.md section 3).  child_count is the t->size field
read by main.c; text is the byte span content that json_token_streq
compares against "series" and "data". -/
structure Token where
  kind : TokKind
  child_count : Nat
  text : String
deriving DecidableEq, Repr

/-- The container test of main.c lines 170 and 205/221/267:
t->type == JSMN_ARRAY || t->type == JSMN_OBJECT. -/
def Token.isContainer (t : Token) : Bool :=
  match t.kind with
  | .object => true
  | .array => true
  | _ => false

/-- The parse_state enum of main.c lines 149-157. -/
inductive ParseState where
  | START
  | METRIC
  | METRIC_OBJECT
  | SERIES
  | NODE_ARRAY
  | NODE_OBJECT
  | DATA
  | SKIP
  | STOP
deriving DecidableEq, Repr

/-- The walker's mutable variables (main.c lines 159-164).  object_tokens
is used by main without a local declaration; it is a process-global in the
original sketch and therefore starts at 0, like the declared counters. -/
structure Cursor where
  state : ParseState
  object_tokens : Nat
  node_tokens : Nat
  skip_tokens : Nat
  nodes : Nat
  elements : Nat
deriving DecidableEq, Repr

/-- Observable outputs of one walker step: the METRIC diagnostic
(line 192), the payload report of the element count (line 286), and the
four structural error messages (lines 179, 188, 229, 282).  The purely
positional trace prints (SKIP, SERIES, NODE_ARRAY, ...) carry no data and
are omitted. -/
inductive Event where
  | metric
  | elements : Nat → Event
  | errRootNotObject
  | errMetricKeyNotString
  | errSeriesNotArray
  | errDataNotArrayOrString
deriving DecidableEq, Repr

/-- One iteration of the switch statement of main.c lines 175-299 on one
token.  The result is the emitted events plus either the next cursor, or
none when the C code calls exit (lines 180, 189).  Transcribed case by
case from the source:

- START (177-184): non-object root exits; otherwise go to METRIC.
- METRIC (186-195): non-string exits; otherwise print METRIC, go to
  METRIC_OBJECT and seed object_tokens from this token's t->size.
- METRIC_OBJECT (197-215): decrement object_tokens first; a string token
  equal to "series" selects SERIES, anything else selects SKIP, seeding
  skip_tokens from t->size only for containers; afterwards, if the
  decremented object_tokens is 0, the state is overwritten with METRIC.
- SKIP (217-225): decrement skip_tokens (no zero guard), then add t->size
  for containers.  No case ever leaves SKIP.
- SERIES (227-240): a non-array only prints the error (no exit); then
  nodes is seeded from t->size and the state becomes NODE_ARRAY, or
  METRIC_OBJECT when nodes is 0.
- NODE_ARRAY (242-254): decrement nodes, seed node_tokens from t->size,
  go to NODE_OBJECT; when the decremented nodes is 0 the state is
  overwritten with STOP.
- NODE_OBJECT (256-278): decrement node_tokens; on an odd remainder a
  "data" string selects DATA and anything else selects SKIP (seeding
  skip_tokens only for containers); when the decremented node_tokens is 0
  the state becomes NODE_ARRAY.
- DATA (280-291): the condition of line 281 is t->type != JSMN_ARRAY ||
  t->type != JSMN_STRING, which is true for every token, so the error is
  always printed and nothing exits; an array then reports its element
  count and selects SKIP with skip_tokens = elements; any other token
  leaves the cursor unchanged.
- STOP (293-295): consume the token, change nothing. -/
def step (t : Token) (c : Cursor) : List Event × Option Cursor :=
  match c.state with
  | .START =>
      if t.kind ≠ .object then ([.errRootNotObject], none)
      else ([], some { c with state := .METRIC })
  | .METRIC =>
      if t.kind ≠ .string then ([.errMetricKeyNotString], none)
      else ([.metric], some { c with state := .METRIC_OBJECT, object_tokens := t.child_count })
  | .METRIC_OBJECT =>
      let ot := decW c.object_tokens
      let c1 :=
        if t.kind = .string ∧ t.text = "series" then
          { c with state := .SERIES, object_tokens := ot }
        else
          { c with state := .SKIP, object_tokens := ot,
                   skip_tokens := if t.isContainer then t.child_count else c.skip_tokens }
      ([], some (if ot = 0 then { c1 with state := .METRIC } else c1))
  | .SKIP =>
      let sk := decW c.skip_tokens
      ([], some { c with skip_tokens := if t.isContainer then (sk + t.child_count) % W else sk })
  | .SERIES =>
      let evs := if t.kind ≠ .array then [Event.errSeriesNotArray] else []
      (evs, some { c with nodes := t.child_count,
                          state := if t.child_count = 0 then .METRIC_OBJECT else .NODE_ARRAY })
  | .NODE_ARRAY =>
      let nd := decW c.nodes
      ([], some { c with nodes := nd, node_tokens := t.child_count,
                          state := if nd = 0 then .STOP else .NODE_OBJECT })
  | .NODE_OBJECT =>
      let nt := decW c.node_tokens
      let c1 :=
        if nt % 2 = 1 then
          if t.kind = .string ∧ t.text = "data" then
            { c with state := .DATA, node_tokens := nt }
          else
            { c with state := .SKIP, node_tokens := nt,
                     skip_tokens := if t.isContainer then t.child_count else c.skip_tokens }
        else { c with node_tokens := nt }
      ([], some (if nt = 0 then { c1 with state := .NODE_ARRAY } else c1))
  | .DATA =>
      if t.kind = .array then
        ([Event.errDataNotArrayOrString, Event.elements t.child_count],
         some { c with elements := t.child_count, state := .SKIP,
                        skip_tokens := t.child_count })
      else ([Event.errDataNotArrayOrString], some c)
  | .STOP => ([], some c)

/-- How the walk of a token list ends: the loop counter j reached 0
(normal for-loop exit, main.c line 166), the token list was exhausted
while j was still positive (in C the loop would read past the token
array), or exit was called inside the switch. -/
inductive WalkStop where
  | counterDone
  | outOfTokens
  | exited
deriving DecidableEq, Repr

/-- The walker loop of main.c line 166: for (i = 0, j = 1; j > 0; i++, j--)
with j += t->size for containers (lines 170-172) before the switch runs.
j is a size_t, so the addition and the final decrement wrap modulo 2^64;
the decrement is only reached when the loop condition j > 0 held. -/
def walkAux : List Token → Nat → Cursor → List Event × WalkStop
  | _, 0, _ => ([], .counterDone)
  | [], _ + 1, _ => ([], .outOfTokens)
  | t :: ts, j + 1, c =>
    let j1 := (j + 1 + (if t.isContainer then t.child_count else 0)) % W
    match step t c with
    | (evs, none) => (evs, .exited)
    | (evs, some c2) =>
      let r := walkAux ts (decW j1) c2
      (evs ++ r.1, r.2)

/-- The whole walk of main.c lines 159-300: counter j starts at 1 and the
state machine starts in START with all counters 0. -/
def walk (ts : List Token) : List Event × WalkStop :=
  walkAux ts 1 ⟨.START, 0, 0, 0, 0, 0⟩

/-- Unit driver for partial walks: fold the switch of main.c over a token
list from an arbitrary cursor, stopping when exit is called.  spec.md
section 9 asks for exactly this (an explicit context value enabling unit
testing of partial walks). -/
def runFrom : Cursor → List Token → List Event × Option Cursor
  | c, [] => ([], some c)
  | c, t :: ts =>
    match step t c with
    | (evs, none) => (evs, none)
    | (evs, some c2) =>
      let r := runFrom c2 ts
      (evs ++ r.1, r.2)

/-- The counter loop of main.c lines 166-172 in isolation (the section 4.2
completion algorithm): starting from a counter value, count how many
tokens of the list are consumed before the counter reaches 0.  Per token
the counter is incremented by t->size for containers and then decremented,
both as size_t operations. -/
def consumeCount : List Token → Nat → Nat
  | _, 0 => 0
  | [], _ + 1 => 0
  | t :: ts, j + 1 =>
    1 + consumeCount ts (decW ((j + 1 + (if t.isContainer then t.child_count else 0)) % W))

/-- JSON values, used to build well-formed preorder token streams. -/
inductive JVal where
  | obj : List (String × JVal) → JVal
  | arr : List JVal → JVal
  | str : String → JVal
  | prim : String → JVal

mutual
/-- Modelled from the spec: the Document produced for one JSON value by
the missing jsmn tokenizer, with the child_count convention of spec.md
section 3 (Object: number of member pairs; Array: number of elements;
String/Primitive: 0), in preorder. -/
def JVal.tokens : JVal → List Token
  | .obj ms => ⟨.object, ms.length, ""⟩ :: JVal.tokensMembers ms
  | .arr xs => ⟨.array, xs.length, ""⟩ :: JVal.tokensElems xs
  | .str s => [⟨.string, 0, s⟩]
  | .prim p => [⟨.primitive, 0, p⟩]

/-- Modelled from the spec: preorder tokens of an object's member list,
each pair contributing its key string token followed by its value's
tokens. -/
def JVal.tokensMembers : List (String × JVal) → List Token
  | [] => []
  | (k, v) :: ms => ⟨.string, 0, k⟩ :: (JVal.tokens v ++ JVal.tokensMembers ms)

/-- Modelled from the spec: preorder tokens of an array's element list. -/
def JVal.tokensElems : List JVal → List Token
  | [] => []
  | v :: vs => JVal.tokens v ++ JVal.tokensElems vs
end

mutual
/-- Alternative serialization in which a container's child_count is its
number of direct child tokens (elements for arrays, key plus value, so
2 x pairs, for objects).  This is the count convention under which the
counter loop of main.c lines 166-172 consumes a whole document exactly;
it differs from the section 3 convention only on objects. -/
def JVal.tokensDC : JVal → List Token
  | .obj ms => ⟨.object, 2 * ms.length, ""⟩ :: JVal.tokensMembersDC ms
  | .arr xs => ⟨.array, xs.length, ""⟩ :: JVal.tokensElemsDC xs
  | .str s => [⟨.string, 0, s⟩]
  | .prim p => [⟨.primitive, 0, p⟩]

/-- Member-list tokens for the direct-child-token count convention. -/
def JVal.tokensMembersDC : List (String × JVal) → List Token
  | [] => []
  | (k, v) :: ms => ⟨.string, 0, k⟩ :: (JVal.tokensDC v ++ JVal.tokensMembersDC ms)

/-- Element-list tokens for the direct-child-token count convention. -/
def JVal.tokensElemsDC : List JVal → List Token
  | [] => []
  | v :: vs => JVal.tokensDC v ++ JVal.tokensElemsDC vs
end

/-- Error taxonomy of the missing tokenizer (spec.md section 7):
Invalid for bytes that are not JSON, Truncated for input that ends before
a structure is closed.  json_tokenise (main.c lines 88-95) checks exactly
these two jsmn results and ends the program on either. -/
inductive SyntaxError where
  | Invalid
  | Truncated
deriving DecidableEq, Repr

/-- Whitespace test for the modelled tokenizer. -/
def isWs (c : Char) : Bool := c = ' ' || c = '\n' || c = '\t' || c = '\r'

/-- Skip leading whitespace. -/
def skipWs : List Char → List Char
  | [] => []
  | c :: cs => if isWs c then skipWs cs else c :: cs

/-- Modelled from the spec: scan a string body after its opening quote up
to the closing quote; none when the input ends inside the string. -/
def scanStringAux : List Char → Option (List Char × List Char)
  | [] => none
  | c :: cs =>
    if c = '\x22' then some ([], cs)
    else
      match scanStringAux cs with
      | none => none
      | some (s, rest) => some (c :: s, rest)

/-- Characters that may appear in a JSON primitive literal. -/
def isPrimChar (c : Char) : Bool := c.isAlphanum || c = '-' || c = '+' || c = '.'

/-- Scan a primitive literal. -/
def scanPrim : List Char → List Char × List Char
  | [] => ([], [])
  | c :: cs =>
    if isPrimChar c then ((c :: (scanPrim cs).1), (scanPrim cs).2)
    else ([], c :: cs)

mutual
/-- Modelled from the spec: the missing jsmn tokenizer (spec.md section
4.1) as a recursive-descent scanner producing the preorder Document with
section 3 child counts.  Every recursive call passes structurally smaller
fuel; the entry point supplies enough fuel for the whole input, so fuel
exhaustion (Invalid) is unreachable there.  The input ending inside an
open structure yields Truncated. -/
def parseVal : Nat → List Char → Except SyntaxError (List Token × List Char)
  | 0, _ => .error .Invalid
  | f + 1, cs =>
    match skipWs cs with
    | [] => .error .Truncated
    | c :: rest =>
      if c = '\x7b' then
        match parseMembers f rest true with
        | .error e => .error e
        | .ok (n, toks, rest2) => .ok (⟨.object, n, ""⟩ :: toks, rest2)
      else if c = '[' then
        match parseElems f rest true with
        | .error e => .error e
        | .ok (n, toks, rest2) => .ok (⟨.array, n, ""⟩ :: toks, rest2)
      else if c = '\x22' then
        match scanStringAux rest with
        | none => .error .Truncated
        | some (s, rest2) => .ok ([⟨.string, 0, String.mk s⟩], rest2)
      else if isPrimChar c then
        .ok ([⟨.primitive, 0, String.mk (scanPrim (c :: rest)).1⟩],
          (scanPrim (c :: rest)).2)
      else .error .Invalid

/-- Modelled from the spec: member list of an object, counting pairs for
the object's child_count. -/
def parseMembers : Nat → List Char → Bool → Except SyntaxError (Nat × List Token × List Char)
  | 0, _, _ => .error .Invalid
  | f + 1, cs, first =>
    match skipWs cs with
    | [] => .error .Truncated
    | c :: rest =>
      if c = '\x7d' then
        (if first then .ok (0, [], rest) else .error .Invalid)
      else if c = '\x22' then
        match scanStringAux rest with
        | none => .error .Truncated
        | some (k, rest2) =>
          match skipWs rest2 with
          | [] => .error .Truncated
          | c2 :: rest3 =>
            if c2 = ':' then
              match parseVal f rest3 with
              | .error e => .error e
              | .ok (vtoks, rest4) =>
                match skipWs rest4 with
                | [] => .error .Truncated
                | c3 :: rest5 =>
                  if c3 = ',' then
                    match parseMembers f rest5 false with
                    | .error e => .error e
                    | .ok (n, toks, rest6) =>
                      .ok (n + 1, ⟨.string, 0, String.mk k⟩ :: (vtoks ++ toks), rest6)
                  else if c3 = '\x7d' then
                    .ok (1, ⟨.string, 0, String.mk k⟩ :: vtoks, rest5)
                  else .error .Invalid
            else .error .Invalid
      else .error .Invalid

/-- Modelled from the spec: element list of an array, counting elements
for the array's child_count. -/
def parseElems : Nat → List Char → Bool → Except SyntaxError (Nat × List Token × List Char)
  | 0, _, _ => .error .Invalid
  | f + 1, cs, first =>
    match skipWs cs with
    | [] => .error .Truncated
    | c :: rest =>
      if c = ']' then
        (if first then .ok (0, [], rest) else .error .Invalid)
      else elemsAfterVal f (parseVal f (c :: rest))

/-- Continuation after one array element: a comma continues the element
list, a closing bracket ends it. -/
def elemsAfterVal : Nat → Except SyntaxError (List Token × List Char) →
    Except SyntaxError (Nat × List Token × List Char)
  | 0, _ => .error .Invalid
  | f + 1, r =>
    match r with
    | .error e => .error e
    | .ok (vtoks, rest2) =>
      match skipWs rest2 with
      | [] => .error .Truncated
      | c2 :: rest3 =>
        if c2 = ',' then
          match parseElems f rest3 false with
          | .error e => .error e
          | .ok (n, toks, rest4) => .ok (n + 1, vtoks ++ toks, rest4)
        else if c2 = ']' then .ok (1, vtoks, rest3)
        else .error .Invalid
end

/-- Modelled from the spec: the tokenizer entry point (jsmn.h is not part
of src/), per spec.md section 4.1.  The fuel, two units per input
character plus a constant, covers every run to its natural end; trailing
data after the one top-level value is ignorable. -/
def tokenise (s : String) : Except SyntaxError (List Token) :=
  match parseVal (2 * s.data.length + 2) s.data with
  | .error e => .error e
  | .ok (toks, _) => .ok toks

/-- Outcome of one program run: a tokenizer error that ends the program
before the walker loop (json_tokenise, main.c lines 88-95), or the
walker's events and stop condition. -/
inductive RunResult where
  | syntaxError : SyntaxError → RunResult
  | walked : List Event → WalkStop → RunResult
deriving DecidableEq, Repr

/-- The program pipeline of main.c lines 146-147: tokenise, and only on
success run the walker loop. -/
def jobTagger (s : String) : RunResult :=
  match tokenise s with
  | .error e => .syntaxError e
  | .ok toks => .walked (walk toks).1 (walk toks).2

/-- Scenario D input of spec.md section 8: a truncated document. -/
def scenarioD : String := "\x7b\x22flops\x22:\x7b\x22series\x22:["

/-- Scenario A input of spec.md section 8 as a JSON value. -/
def scenarioA : JVal :=
  .obj [("flops", .obj [("series", .arr [.obj
    [("nodeId", .prim "1"), ("data", .arr [.prim "1", .prim "2", .prim "3"])]])])]

/-- Scenario B input of spec.md section 8 as a JSON value. -/
def scenarioB : JVal :=
  .obj [("flops", .obj [("unit", .str "GF/s"), ("series", .arr [.obj
    [("data", .str "n/a")]])])]

/-- Scenario C input of spec.md section 8 as a JSON value. -/
def scenarioC : JVal :=
  .obj [("flops", .obj [("series", .arr [])])]

theorem W_pos : 0 < W := by norm_num [W]

/-- One iteration of the counter update of main.c lines 166-172, when no
size_t wraparound occurs: add the child count, take one consumption step. -/
theorem counter_step (j cc : Nat) (h : j + 1 + cc < W) :
    decW ((j + 1 + cc) % W) = j + cc := by
  have h1 : 0 < W := W_pos
  rw [Nat.mod_eq_of_lt h]
  unfold decW
  have h2 : j + 1 + cc + (W - 1) = j + cc + W := by omega
  rw [h2, Nat.add_mod_right]
  exact Nat.mod_eq_of_lt (by omega)

theorem tokensDC_length_pos (v : JVal) : 1 ≤ (JVal.tokensDC v).length := by
  cases v <;> simp [JVal.tokensDC]

theorem tokensMembersDC_length_ge (ms : List (String × JVal)) :
    2 * ms.length ≤ (JVal.tokensMembersDC ms).length := by
  induction ms with
  | nil => simp [JVal.tokensMembersDC]
  | cons m ms2 ih =>
    obtain ⟨k, v⟩ := m
    have h1 := tokensDC_length_pos v
    simp only [JVal.tokensMembersDC, List.length_cons, List.length_append]
    omega

theorem tokensElemsDC_length_ge (xs : List JVal) :
    xs.length ≤ (JVal.tokensElemsDC xs).length := by
  induction xs with
  | nil => simp [JVal.tokensElemsDC]
  | cons v xs2 ih =>
    have h1 := tokensDC_length_pos v
    simp only [JVal.tokensElemsDC, List.length_cons, List.length_append]
    omega

mutual
/-- Counter-loop completion for one value under the direct-child-token
count convention: consuming the value's tokens brings the counter from
j + 1 down to j, consuming exactly the value's tokens. -/
theorem consumeDC_val (v : JVal) (rest : List Token) (j : Nat)
    (hb : j + 2 * (JVal.tokensDC v).length + 2 ≤ W) :
    consumeCount (JVal.tokensDC v ++ rest) (j + 1)
      = (JVal.tokensDC v).length + consumeCount rest j := by
  match v with
  | .str s =>
    have hL : (JVal.tokensDC (JVal.str s)).length = 1 := rfl
    have h0 : j + 1 + 0 < W := by omega
    calc consumeCount (JVal.tokensDC (JVal.str s) ++ rest) (j + 1)
        = 1 + consumeCount rest (decW ((j + 1 + 0) % W)) := rfl
      _ = 1 + consumeCount rest j := by rw [counter_step j 0 h0, Nat.add_zero]
      _ = (JVal.tokensDC (JVal.str s)).length + consumeCount rest j := by rw [hL]
  | .prim p =>
    have hL : (JVal.tokensDC (JVal.prim p)).length = 1 := rfl
    have h0 : j + 1 + 0 < W := by omega
    calc consumeCount (JVal.tokensDC (JVal.prim p) ++ rest) (j + 1)
        = 1 + consumeCount rest (decW ((j + 1 + 0) % W)) := rfl
      _ = 1 + consumeCount rest j := by rw [counter_step j 0 h0, Nat.add_zero]
      _ = (JVal.tokensDC (JVal.prim p)).length + consumeCount rest j := by rw [hL]
  | .obj ms =>
    have hlen := tokensMembersDC_length_ge ms
    have hL : (JVal.tokensDC (JVal.obj ms)).length
        = (JVal.tokensMembersDC ms).length + 1 := rfl
    have h0 : j + 1 + 2 * ms.length < W := by omega
    have hb1 : j + 2 * (JVal.tokensMembersDC ms).length + 2 ≤ W := by omega
    calc consumeCount (JVal.tokensDC (JVal.obj ms) ++ rest) (j + 1)
        = 1 + consumeCount (JVal.tokensMembersDC ms ++ rest)
            (decW ((j + 1 + 2 * ms.length) % W)) := rfl
      _ = 1 + consumeCount (JVal.tokensMembersDC ms ++ rest) (j + 2 * ms.length) := by
          rw [counter_step j (2 * ms.length) h0]
      _ = 1 + ((JVal.tokensMembersDC ms).length + consumeCount rest j) := by
          rw [consumeDC_members ms rest j hb1]
      _ = (JVal.tokensDC (JVal.obj ms)).length + consumeCount rest j := by
          rw [hL]; omega
  | .arr xs =>
    have hlen := tokensElemsDC_length_ge xs
    have hL : (JVal.tokensDC (JVal.arr xs)).length
        = (JVal.tokensElemsDC xs).length + 1 := rfl
    have h0 : j + 1 + xs.length < W := by omega
    have hb1 : j + 2 * (JVal.tokensElemsDC xs).length + 2 ≤ W := by omega
    calc consumeCount (JVal.tokensDC (JVal.arr xs) ++ rest) (j + 1)
        = 1 + consumeCount (JVal.tokensElemsDC xs ++ rest)
            (decW ((j + 1 + xs.length) % W)) := rfl
      _ = 1 + consumeCount (JVal.tokensElemsDC xs ++ rest) (j + xs.length) := by
          rw [counter_step j xs.length h0]
      _ = 1 + ((JVal.tokensElemsDC xs).length + consumeCount rest j) := by
          rw [consumeDC_elems xs rest j hb1]
      _ = (JVal.tokensDC (JVal.arr xs)).length + consumeCount rest j := by
          rw [hL]; omega

/-- Counter-loop completion for an object's member list: the counter
enters carrying the object's promise of 2 x pairs direct child tokens. -/
theorem consumeDC_members (ms : List (String × JVal)) (rest : List Token) (j : Nat)
    (hb : j + 2 * (JVal.tokensMembersDC ms).length + 2 ≤ W) :
    consumeCount (JVal.tokensMembersDC ms ++ rest) (j + 2 * ms.length)
      = (JVal.tokensMembersDC ms).length + consumeCount rest j := by
  match ms with
  | [] => simp [JVal.tokensMembersDC]
  | (k, v) :: ms2 =>
    have hlen2 := tokensMembersDC_length_ge ms2
    have hlenv := tokensDC_length_pos v
    have hL : (JVal.tokensMembersDC ((k, v) :: ms2)).length
        = (JVal.tokensDC v).length + (JVal.tokensMembersDC ms2).length + 1 := by
      show (JVal.tokensDC v ++ JVal.tokensMembersDC ms2).length + 1 = _
      simp [List.length_append]
    have h0 : j + 2 * ms2.length + 1 + 1 + 0 < W := by omega
    have hbv : j + 2 * ms2.length + 2 * (JVal.tokensDC v).length + 2 ≤ W := by omega
    have hbm : j + 2 * (JVal.tokensMembersDC ms2).length + 2 ≤ W := by omega
    calc consumeCount (JVal.tokensMembersDC ((k, v) :: ms2) ++ rest)
          (j + 2 * ((k, v) :: ms2).length)
        = 1 + consumeCount ((JVal.tokensDC v ++ JVal.tokensMembersDC ms2) ++ rest)
            (decW ((j + 2 * ms2.length + 1 + 1 + 0) % W)) := rfl
      _ = 1 + consumeCount (JVal.tokensDC v ++ (JVal.tokensMembersDC ms2 ++ rest))
            (decW ((j + 2 * ms2.length + 1 + 1 + 0) % W)) := by
          rw [List.append_assoc]
      _ = 1 + consumeCount (JVal.tokensDC v ++ (JVal.tokensMembersDC ms2 ++ rest))
            (j + 2 * ms2.length + 1 + 0) := by
          rw [counter_step (j + 2 * ms2.length + 1) 0 h0]
      _ = 1 + consumeCount (JVal.tokensDC v ++ (JVal.tokensMembersDC ms2 ++ rest))
            (j + 2 * ms2.length + 1) := by rw [Nat.add_zero]
      _ = 1 + ((JVal.tokensDC v).length
            + consumeCount (JVal.tokensMembersDC ms2 ++ rest) (j + 2 * ms2.length)) := by
          rw [consumeDC_val v (JVal.tokensMembersDC ms2 ++ rest) (j + 2 * ms2.length) hbv]
      _ = 1 + ((JVal.tokensDC v).length
            + ((JVal.tokensMembersDC ms2).length + consumeCount rest j)) := by
          rw [consumeDC_members ms2 rest j hbm]
      _ = (JVal.tokensMembersDC ((k, v) :: ms2)).length + consumeCount rest j := by
          rw [hL]; omega

/-- Counter-loop completion for an array's element list: the counter
enters carrying the array's promise of one token per element. -/
theorem consumeDC_elems (xs : List JVal) (rest : List Token) (j : Nat)
    (hb : j + 2 * (JVal.tokensElemsDC xs).length + 2 ≤ W) :
    consumeCount (JVal.tokensElemsDC xs ++ rest) (j + xs.length)
      = (JVal.tokensElemsDC xs).length + consumeCount rest j := by
  match xs with
  | [] => simp [JVal.tokensElemsDC]
  | v :: xs2 =>
    have hlen2 := tokensElemsDC_length_ge xs2
    have hlenv := tokensDC_length_pos v
    have hL : (JVal.tokensElemsDC (v :: xs2)).length
        = (JVal.tokensDC v).length + (JVal.tokensElemsDC xs2).length := by
      show (JVal.tokensDC v ++ JVal.tokensElemsDC xs2).length = _
      simp [List.length_append]
    have hbv : j + xs2.length + 2 * (JVal.tokensDC v).length + 2 ≤ W := by omega
    have hbe : j + 2 * (JVal.tokensElemsDC xs2).length + 2 ≤ W := by omega
    calc consumeCount (JVal.tokensElemsDC (v :: xs2) ++ rest) (j + (v :: xs2).length)
        = consumeCount ((JVal.tokensDC v ++ JVal.tokensElemsDC xs2) ++ rest)
            (j + xs2.length + 1) := rfl
      _ = consumeCount (JVal.tokensDC v ++ (JVal.tokensElemsDC xs2 ++ rest))
            (j + xs2.length + 1) := by rw [List.append_assoc]
      _ = (JVal.tokensDC v).length
            + consumeCount (JVal.tokensElemsDC xs2 ++ rest) (j + xs2.length) := by
          rw [consumeDC_val v (JVal.tokensElemsDC xs2 ++ rest) (j + xs2.length) hbv]
      _ = (JVal.tokensDC v).length
            + ((JVal.tokensElemsDC xs2).length + consumeCount rest j) := by
          rw [consumeDC_elems xs2 rest j hbe]
      _ = (JVal.tokensElemsDC (v :: xs2)).length + consumeCount rest j := by
          rw [hL]; omega
end

/-- The counter loop can never consume more tokens than the list holds. -/
theorem consumeCount_le_length (ts : List Token) : ∀ j, consumeCount ts j ≤ ts.length := by
  induction ts with
  | nil => intro j; cases j <;> simp [consumeCount]
  | cons t ts ih =>
    intro j
    cases j with
    | zero => simp [consumeCount]
    | succ j =>
      simp only [consumeCount, List.length_cons]
      have := ih (decW ((j + 1 + (if t.isContainer then t.child_count else 0)) % W))
      omega

/-- C1 counterexample: with the section 3 child_count convention (an
Object token carries its number of member pairs), the counter loop of
main.c lines 166-172 reaches 0 after 2 tokens on the 3-token document of
the one-pair object input, so it consumes strictly fewer than
len(Document) tokens, contradicting the claim. -/
theorem C1_counterexample :
    consumeCount (JVal.tokens (JVal.obj [("a", JVal.prim "1")])) 1 = 2
    ∧ (JVal.tokens (JVal.obj [("a", JVal.prim "1")])).length = 3 :=
  ⟨rfl, rfl⟩

/-- C1 (amended): the counter loop never consumes more tokens than the
document holds, and it reaches 0 after consuming exactly len(Document)
tokens when every container's child_count equals its number of direct
child tokens (elements for arrays, 2 x member pairs for objects); with
the section 3 object convention it can stop strictly earlier, as the
counterexample shows. -/
theorem C1_amended :
    (∀ (ts : List Token) (j : Nat), consumeCount ts j ≤ ts.length)
    ∧ (∀ v : JVal, 2 * (JVal.tokensDC v).length + 2 ≤ W →
        consumeCount (JVal.tokensDC v) 1 = (JVal.tokensDC v).length) := by
  constructor
  · exact fun ts j => consumeCount_le_length ts j
  · intro v hv
    have h := consumeDC_val v [] 0 (by omega)
    simpa [consumeCount] using h

/-- C1 amended witness at the Scenario A document under the
direct-child-token convention: all 13 tokens are consumed. -/
theorem C1_amended_witness :
    2 * (JVal.tokensDC scenarioA).length + 2 ≤ W
    ∧ consumeCount (JVal.tokensDC scenarioA) 1 = (JVal.tokensDC scenarioA).length :=
  ⟨by decide, C1_amended.2 scenarioA (by decide)⟩

/-- C2: the SKIP case of main.c lines 217-225 never assigns a new state,
so control never returns from the skip: every step from SKIP emits no
event and stays in SKIP, and concretely, after skip_tokens reaches 0 the
subtree's next sibling is still consumed in SKIP while skip_tokens wraps
to 2^64 - 1. -/
theorem C2_code_eval :
    (∀ (t : Token) (c : Cursor), c.state = .SKIP →
      (step t c).1 = [] ∧ ∃ c2, (step t c).2 = some c2 ∧ c2.state = .SKIP)
    ∧ runFrom ⟨.SKIP, 0, 0, 1, 0, 0⟩ [⟨.primitive, 0, "1"⟩, ⟨.string, 0, "sib"⟩]
        = ([], some ⟨.SKIP, 0, 0, W - 1, 0, 0⟩) := by
  constructor
  · intro t c h
    obtain ⟨st, o, n, s, nd, e⟩ := c
    subst h
    exact ⟨rfl, ⟨_, rfl, rfl⟩⟩
  · decide

/-- C2 witness: SKIP absorption applied at a concrete token and cursor. -/
theorem C2_code_eval_witness :
    (step ⟨.primitive, 0, "1"⟩ ⟨.SKIP, 0, 0, 5, 0, 0⟩).1 = []
    ∧ ∃ c2, (step ⟨.primitive, 0, "1"⟩ ⟨.SKIP, 0, 0, 5, 0, 0⟩).2 = some c2
        ∧ c2.state = .SKIP :=
  C2_code_eval.1 ⟨.primitive, 0, "1"⟩ ⟨.SKIP, 0, 0, 5, 0, 0⟩ rfl

/-- C3: walking the Scenario A document produces only the METRIC
diagnostic and no payload at all: the walk's counter reaches 0 after two
tokens and no elements event is ever emitted, against the claimed single
payload with metric flops, node index 0 and element count 3. -/
theorem C3_code_eval :
    walk (JVal.tokens scenarioA) = ([Event.metric], WalkStop.counterDone)
    ∧ ∀ n, Event.elements n ∉ (walk (JVal.tokens scenarioA)).1 := by
  refine ⟨by decide, ?_⟩
  intro n
  rw [show walk (JVal.tokens scenarioA) = ([Event.metric], WalkStop.counterDone)
    from by decide]
  simp

/-- C4: walking the Scenario B document reports only the METRIC
diagnostic and no payload, and in general a String value reaching the
DATA state is neither materialized nor reported: the always-true data
error of line 281 is emitted and the cursor is returned unchanged, still
in DATA. -/
theorem C4_code_eval :
    walk (JVal.tokens scenarioB) = ([Event.metric], WalkStop.counterDone)
    ∧ (∀ (t : Token) (c : Cursor), c.state = .DATA → t.kind = .string →
        step t c = ([Event.errDataNotArrayOrString], some c)) := by
  refine ⟨by decide, ?_⟩
  intro t c h1 h2
  obtain ⟨st, o, n, s, nd, e⟩ := c
  subst h1
  simp [step, h2]

/-- C4 witness: a string data value at a concrete cursor. -/
theorem C4_code_eval_witness :
    step ⟨.string, 0, "n/a"⟩ ⟨.DATA, 0, 0, 0, 0, 0⟩
      = ([Event.errDataNotArrayOrString], some ⟨.DATA, 0, 0, 0, 0, 0⟩) :=
  C4_code_eval.2 ⟨.string, 0, "n/a"⟩ ⟨.DATA, 0, 0, 0, 0, 0⟩ rfl rfl

/-- C5 counterexample: a series value that is not an array is not fatal.
The step from SERIES on a primitive token emits the series error and
continues with state METRIC_OBJECT instead of stopping the walk, so not
every structural error is fatal. -/
theorem C5_counterexample :
    step ⟨.primitive, 0, "5"⟩ ⟨.SERIES, 7, 0, 0, 0, 0⟩
      = ([Event.errSeriesNotArray], some ⟨.METRIC_OBJECT, 7, 0, 0, 0, 0⟩) := rfl

/-- C5 (amended): only the two early schema errors are fatal.  A
non-object root and a non-string metric key stop the walk immediately
with just the tagged error event; a non-array series value and every
token reaching DATA (the inert check of line 281) only emit their error
event and the walk continues. -/
theorem C5_amended :
    (∀ (t : Token) (c : Cursor), c.state = .START → t.kind ≠ .object →
        step t c = ([Event.errRootNotObject], none))
    ∧ (∀ (t : Token) (c : Cursor), c.state = .METRIC → t.kind ≠ .string →
        step t c = ([Event.errMetricKeyNotString], none))
    ∧ (∀ (t : Token) (c : Cursor), c.state = .SERIES → t.kind ≠ .array →
        (step t c).1 = [Event.errSeriesNotArray] ∧ (step t c).2 ≠ none)
    ∧ (∀ (t : Token) (c : Cursor), c.state = .DATA →
        Event.errDataNotArrayOrString ∈ (step t c).1 ∧ (step t c).2 ≠ none) := by
  refine ⟨?_, ?_, ?_, ?_⟩
  · intro t c h1 h2
    obtain ⟨st, o, n, s, nd, e⟩ := c
    subst h1
    simp [step, h2]
  · intro t c h1 h2
    obtain ⟨st, o, n, s, nd, e⟩ := c
    subst h1
    simp [step, h2]
  · intro t c h1 h2
    obtain ⟨st, o, n, s, nd, e⟩ := c
    subst h1
    refine ⟨?_, ?_⟩
    · show (if t.kind ≠ TokKind.array then [Event.errSeriesNotArray]
        else ([] : List Event)) = [Event.errSeriesNotArray]
      rw [if_pos h2]
    · exact Option.some_ne_none _
  · intro t c h1
    obtain ⟨st, o, n, s, nd, e⟩ := c
    subst h1
    by_cases h2 : t.kind = TokKind.array
    · simp [step, h2]
    · simp [step, h2]

/-- C5 amended witness: each of the four error situations at a concrete
token and cursor. -/
theorem C5_amended_witness :
    step ⟨.array, 2, ""⟩ ⟨.START, 0, 0, 0, 0, 0⟩ = ([Event.errRootNotObject], none)
    ∧ step ⟨.object, 1, ""⟩ ⟨.METRIC, 0, 0, 0, 0, 0⟩
        = ([Event.errMetricKeyNotString], none)
    ∧ ((step ⟨.primitive, 0, "5"⟩ ⟨.SERIES, 7, 0, 0, 0, 0⟩).1
          = [Event.errSeriesNotArray]
        ∧ (step ⟨.primitive, 0, "5"⟩ ⟨.SERIES, 7, 0, 0, 0, 0⟩).2 ≠ none)
    ∧ (Event.errDataNotArrayOrString ∈ (step ⟨.array, 3, ""⟩ ⟨.DATA, 0, 0, 0, 0, 0⟩).1
        ∧ (step ⟨.array, 3, ""⟩ ⟨.DATA, 0, 0, 0, 0, 0⟩).2 ≠ none) :=
  ⟨C5_amended.1 ⟨.array, 2, ""⟩ ⟨.START, 0, 0, 0, 0, 0⟩ rfl (by decide),
   C5_amended.2.1 ⟨.object, 1, ""⟩ ⟨.METRIC, 0, 0, 0, 0, 0⟩ rfl (by decide),
   C5_amended.2.2.1 ⟨.primitive, 0, "5"⟩ ⟨.SERIES, 7, 0, 0, 0, 0⟩ rfl (by decide),
   C5_amended.2.2.2 ⟨.array, 3, ""⟩ ⟨.DATA, 0, 0, 0, 0, 0⟩ rfl⟩

/-- C6: inserting one extra member before the data member of a node
object changes the reported payloads.  Walked from NODE_OBJECT (with
node_tokens seeded with the object's number of direct child tokens, the
count under which the parity key detection of line 261 operates), the
node object with the single member data:[1,2] reports the payload
elements 2, while the same object with an extra leading member extra:0
reports nothing: the walker enters SKIP on the extra member's leaf value
and never returns to schema matching. -/
theorem C6_code_eval :
    (runFrom ⟨.NODE_OBJECT, 0, 4, 0, 0, 0⟩
      [⟨.string, 0, "data"⟩, ⟨.array, 2, ""⟩, ⟨.primitive, 0, "1"⟩,
       ⟨.primitive, 0, "2"⟩]).1
      = [Event.errDataNotArrayOrString, Event.elements 2]
    ∧ (runFrom ⟨.NODE_OBJECT, 0, 6, 0, 0, 0⟩
      [⟨.string, 0, "extra"⟩, ⟨.primitive, 0, "0"⟩, ⟨.string, 0, "data"⟩,
       ⟨.array, 2, ""⟩, ⟨.primitive, 0, "1"⟩, ⟨.primitive, 0, "2"⟩]).1
      = [] := by
  constructor
  · decide
  · decide

/-- C7: in the SERIES state an empty array is accepted with no error and
no payload and the walker returns to METRIC_OBJECT to continue with the
metric object's remaining members (main.c lines 227-240); the full
Scenario C walk likewise reports no error event and no payload. -/
theorem C7_series_empty :
    (∀ (t : Token) (c : Cursor), c.state = .SERIES → t.kind = .array →
        t.child_count = 0 →
        step t c = ([], some { c with state := .METRIC_OBJECT, nodes := 0 }))
    ∧ walk (JVal.tokens scenarioC) = ([Event.metric], WalkStop.counterDone) := by
  refine ⟨?_, by decide⟩
  intro t c h1 h2 h3
  obtain ⟨st, o, n, s, nd, e⟩ := c
  subst h1
  simp [step, h2, h3]

/-- C7 witness: the empty series array at a concrete cursor. -/
theorem C7_series_empty_witness :
    step ⟨.array, 0, ""⟩ ⟨.SERIES, 3, 0, 0, 0, 0⟩
      = ([], some ⟨.METRIC_OBJECT, 3, 0, 0, 0, 0⟩) :=
  C7_series_empty.1 ⟨.array, 0, ""⟩ ⟨.SERIES, 3, 0, 0, 0, 0⟩ rfl rfl rfl

/-- C9: STOP is absorbing.  Every step from STOP consumes the token with
no event, no error and no payload and stays in STOP, hence any token
sequence walked from STOP produces no events and ends in the same
cursor. -/
theorem C9_stop_absorbing :
    (∀ (t : Token) (c : Cursor), c.state = .STOP → step t c = ([], some c))
    ∧ (∀ (ts : List Token) (c : Cursor), c.state = .STOP →
        runFrom c ts = ([], some c)) := by
  have h1 : ∀ (t : Token) (c : Cursor), c.state = .STOP → step t c = ([], some c) := by
    intro t c h
    obtain ⟨st, o, n, s, nd, e⟩ := c
    subst h
    rfl
  refine ⟨h1, ?_⟩
  intro ts
  induction ts with
  | nil => intro c h; rfl
  | cons t ts ih =>
    intro c h
    simp only [runFrom, h1 t c h, ih c h]
    simp

/-- C9 witness: STOP absorption at a concrete token and cursor. -/
theorem C9_stop_absorbing_witness :
    step ⟨.object, 9, "x"⟩ ⟨.STOP, 1, 2, 3, 4, 5⟩
      = ([], some ⟨.STOP, 1, 2, 3, 4, 5⟩) :=
  C9_stop_absorbing.1 ⟨.object, 9, "x"⟩ ⟨.STOP, 1, 2, 3, 4, 5⟩ rfl

/-- C10: entering SKIP for a leaf member value does not re-seed
skip_tokens (main.c lines 203-208 and 265-270 seed it only for container
values), and the SKIP case then decrements skip_tokens with no zero
guard, so from 0 it wraps to 2^64 - 1 (SIZE_MAX) instead of ending the
skip. -/
theorem C10_skip_wrap :
    (∀ (t : Token) (c : Cursor), c.state = .METRIC_OBJECT →
      (t.kind = .primitive ∨ (t.kind = .string ∧ t.text ≠ "series")) →
      decW c.object_tokens ≠ 0 →
      step t c
        = ([], some { c with state := .SKIP, object_tokens := decW c.object_tokens }))
    ∧ (∀ (t : Token) (c : Cursor), c.state = .NODE_OBJECT →
      (t.kind = .primitive ∨ (t.kind = .string ∧ t.text ≠ "data")) →
      decW c.node_tokens % 2 = 1 →
      step t c
        = ([], some { c with state := .SKIP, node_tokens := decW c.node_tokens }))
    ∧ (∀ (t : Token) (c : Cursor), c.state = .SKIP → c.skip_tokens = 0 →
      t.kind = .primitive →
      step t c = ([], some { c with skip_tokens := W - 1 })) := by
  refine ⟨?_, ?_, ?_⟩
  · intro t c h1 h2 h3
    obtain ⟨st, o, n, s, nd, e⟩ := c
    subst h1
    rcases h2 with hk | ⟨hk, hs⟩
    · simp [step, Token.isContainer, hk, h3]
    · simp [step, Token.isContainer, hk, hs, h3]
  · intro t c h1 h2 h3
    obtain ⟨st, o, n, s, nd, e⟩ := c
    subst h1
    have h4 : decW n ≠ 0 := by
      intro h0
      rw [h0] at h3
      simp at h3
    rcases h2 with hk | ⟨hk, hs⟩
    · simp [step, Token.isContainer, hk, h3, h4]
    · simp [step, Token.isContainer, hk, hs, h3, h4]
  · intro t c h1 h2 h3
    obtain ⟨st, o, n, s, nd, e⟩ := c
    subst h1
    subst h2
    simp [step, Token.isContainer, h3, show decW 0 = W - 1 from by decide]

/-- C10 witness: the three behaviours at concrete tokens and cursors. -/
theorem C10_skip_wrap_witness :
    step ⟨.primitive, 0, "1"⟩ ⟨.METRIC_OBJECT, 5, 0, 7, 0, 0⟩
      = ([], some ⟨.SKIP, 4, 0, 7, 0, 0⟩)
    ∧ step ⟨.string, 0, "other"⟩ ⟨.NODE_OBJECT, 0, 4, 7, 0, 0⟩
      = ([], some ⟨.SKIP, 0, 3, 7, 0, 0⟩)
    ∧ step ⟨.primitive, 0, "1"⟩ ⟨.SKIP, 0, 0, 0, 0, 0⟩
      = ([], some ⟨.SKIP, 0, 0, W - 1, 0, 0⟩) :=
  ⟨C10_skip_wrap.1 ⟨.primitive, 0, "1"⟩ ⟨.METRIC_OBJECT, 5, 0, 7, 0, 0⟩ rfl
      (Or.inl rfl) (by decide),
   C10_skip_wrap.2.1 ⟨.string, 0, "other"⟩ ⟨.NODE_OBJECT, 0, 4, 7, 0, 0⟩ rfl
      (Or.inr ⟨rfl, by decide⟩) (by decide),
   C10_skip_wrap.2.2 ⟨.primitive, 0, "1"⟩ ⟨.SKIP, 0, 0, 0, 0, 0⟩ rfl rfl rfl⟩

/-- Unfolding: a value starting with an opening bracket parses its
element list and wraps it in an array token. -/
theorem parseVal_bracket (f : Nat) (cs : List Char) :
    parseVal (f + 1) ('[' :: cs)
      = match parseElems f cs true with
        | .error e => .error e
        | .ok (n, toks, rest2) => .ok (⟨.array, n, ""⟩ :: toks, rest2) := rfl

/-- Unfolding: an element list starting with an opening bracket parses
that element as a value and continues. -/
theorem parseElems_bracket (f : Nat) (cs : List Char) :
    parseElems (f + 1) ('[' :: cs) true
      = elemsAfterVal f (parseVal f ('[' :: cs)) := rfl

/-- Unfolding: a failed element propagates its error. -/
theorem elemsAfterVal_error (f : Nat) (e : SyntaxError) :
    elemsAfterVal (f + 1) (.error e) = .error e := rfl

/-- Unclosed opening brackets of any depth are rejected as Truncated, for
every sufficient fuel: the scanner reaches the end of input with the
structures still open. -/
theorem parseVal_openArrays : ∀ (n g : Nat), 2 * n + 2 ≤ g →
    parseVal g ('[' :: List.replicate n '[') = .error .Truncated := by
  intro n
  induction n with
  | zero =>
    intro g hg
    obtain ⟨g2, rfl⟩ : ∃ g2, g = g2 + 2 := ⟨g - 2, by omega⟩
    rfl
  | succ n ih =>
    intro g hg
    obtain ⟨g3, rfl⟩ : ∃ g3, g = g3 + 3 := ⟨g - 3, by omega⟩
    have h1 := ih (g3 + 1) (by omega)
    have h2 : parseElems (g3 + 1 + 1) ('[' :: List.replicate n '[') true
        = .error .Truncated := by
      rw [parseElems_bracket, h1, elemsAfterVal_error]
    show parseVal (g3 + 1 + 1 + 1) ('[' :: List.replicate (n + 1) '[')
      = .error .Truncated
    rw [List.replicate_succ, parseVal_bracket, h2]

/-- C8: a tokenizer Truncated failure ends the program before the walker
ever runs (json_tokenise, main.c lines 92-95, exits on JSMN_ERROR_PART),
the Scenario D input is rejected as Truncated, and so is an unclosed
opening bracket nest of any depth. -/
theorem C8_truncated :
    (∀ s : String, tokenise s = .error .Truncated →
        jobTagger s = .syntaxError .Truncated)
    ∧ tokenise scenarioD = .error .Truncated
    ∧ (∀ n : Nat, tokenise (String.mk (List.replicate (n + 1) '['))
        = .error .Truncated) := by
  refine ⟨?_, rfl, ?_⟩
  · intro s h
    unfold jobTagger
    rw [h]
  · intro n
    unfold tokenise
    have hd : (String.mk (List.replicate (n + 1) '[')).data
        = List.replicate (n + 1) '[' := rfl
    rw [hd]
    simp only [List.length_replicate]
    rw [List.replicate_succ]
    rw [parseVal_openArrays n (2 * (n + 1) + 2) (by omega)]

/-- C8 witness: the full pipeline on the Scenario D truncated input never
reaches the walker. -/
theorem C8_truncated_witness : jobTagger scenarioD = .syntaxError .Truncated :=
  C8_truncated.1 scenarioD C8_truncated.2.1
